import Mathlib

/-!
Shallow embedding of the rust-audio core: the lock-free ring buffer
(`src/crate/src/ring_buffer.rs`), the Opus mixer and its per-stream state
(`src/crate/src/opus_mixer/`), and the producer adapter
(`src/crate/src/opus_source.rs`).

Modelling conventions: `usize` counters and indices become `ℕ` (all
subtractions happen under in-range hypotheses that match the source's
non-wrapping use), `i64` quantities become `ℤ` with Rust's truncating
division rendered as `Int.tdiv`, and `f32`/`f64` sample and drift values
become `ℚ` (exact field arithmetic standing in for the float operations).
Calls into external libraries (the Ogg packet reader and the libopus
decoder) are supplied as explicit oracle parameters, and a Rust panic from
an out-of-bounds slice index is rendered as `Option.none`.
-/

namespace RustAudio

/-- FRAME_SIZE from `opus_mixer/mod.rs`: 960 samples, 20 ms at 48 kHz. -/
def FRAME_SIZE : ℕ := 960

/-- SAMPLE_RATE from `opus_mixer/mod.rs`. -/
def SAMPLE_RATE : ℕ := 48000

/-- CHANNELS from `opus_mixer/mod.rs` (stereo output). -/
def CHANNELS : ℕ := 2

/-- BUFFER_SIZE from `ring_buffer.rs`: `FRAME_SIZE * 8`.  The source comment
says "Must be a power of 2", but 7680 is not a power of two. -/
def BUFFER_SIZE : ℕ := FRAME_SIZE * 8

/-- BUFFER_MASK from `ring_buffer.rs`: `BUFFER_SIZE - 1`, used with `&` as a
purported modulo. -/
def BUFFER_MASK : ℕ := BUFFER_SIZE - 1

/-- METADATA_SIZE from `ring_buffer.rs`: two shared slots for the read and
write pointers. -/
def METADATA_SIZE : ℕ := 2

/-- State of `RingBuffer`.  `data` is the sample region of the shared
buffer (slot `i` is `buffer_view[i + METADATA_SIZE]`); `metaRead` and
`metaWrite` are shared metadata slots 0 and 1; the remaining fields are the
local atomics of the Rust struct. -/
structure RingBuffer where
  data : ℕ → ℚ
  metaRead : ℕ
  metaWrite : ℕ
  readPtr : ℕ
  writePtr : ℕ
  highWaterMarkRead : ℕ
  highWaterMarkWrite : ℕ
  totalWrites : ℕ
  totalReads : ℕ
  totalUnderruns : ℕ
  totalSamplesWritten : ℕ
  totalSamplesRead : ℕ

/-- `RingBuffer::new`: zeroed pointers and metrics, write high-water mark
starts at `BUFFER_SIZE - 1`. -/
def RingBuffer.new : RingBuffer where
  data := fun _ => 0
  metaRead := 0
  metaWrite := 0
  readPtr := 0
  writePtr := 0
  highWaterMarkRead := 0
  highWaterMarkWrite := BUFFER_SIZE - 1
  totalWrites := 0
  totalReads := 0
  totalUnderruns := 0
  totalSamplesWritten := 0
  totalSamplesRead := 0

/-- `RingBuffer::available_read`. -/
def RingBuffer.available_read (rb : RingBuffer) : ℕ :=
  if rb.writePtr ≥ rb.readPtr then rb.writePtr - rb.readPtr
  else BUFFER_SIZE - rb.readPtr + rb.writePtr

/-- `RingBuffer::available_write`: one slot is left empty to distinguish a
full buffer from an empty one. -/
def RingBuffer.available_write (rb : RingBuffer) : ℕ :=
  if rb.writePtr ≥ rb.readPtr then BUFFER_SIZE - (rb.writePtr - rb.readPtr) - 1
  else rb.readPtr - rb.writePtr - 1

/-- The sample-store loop of `RingBuffer::write`: after `k` iterations,
iteration `i < k` has stored `samples[i]` at slot `(write_ptr + i) & BUFFER_MASK`
(later iterations win on a slot collision, as in the source loop). -/
def writeLoop (buf : ℕ → ℚ) (write_ptr : ℕ) (samples : List ℚ) : ℕ → ℕ → ℚ
  | 0 => buf
  | k + 1 => fun idx =>
      if idx = (write_ptr + k) &&& BUFFER_MASK then samples.getD k 0
      else writeLoop buf write_ptr samples k idx

/-- `RingBuffer::write`: clamps the request to the available space, stores
the accepted samples with the mask, publishes the new (masked) write pointer
into the local atomic and shared slot 1, updates metrics and high-water
marks, and returns the number of samples stored. -/
def RingBuffer.write (rb : RingBuffer) (samples : List ℚ) : RingBuffer × ℕ :=
  let write_ptr := rb.writePtr
  let read_ptr := rb.readPtr
  let available :=
    if write_ptr ≥ read_ptr then BUFFER_SIZE - (write_ptr - read_ptr) - 1
    else read_ptr - write_ptr - 1
  let to_write := min samples.length available
  let new_write_ptr := (write_ptr + to_write) &&& BUFFER_MASK
  let rb2 : RingBuffer :=
    { rb with
      totalWrites := rb.totalWrites + 1
      totalSamplesWritten := rb.totalSamplesWritten + to_write
      data := writeLoop rb.data write_ptr samples to_write
      writePtr := new_write_ptr
      metaWrite := new_write_ptr }
  let car := rb2.available_read
  let rb3 : RingBuffer :=
    { rb2 with
      highWaterMarkRead :=
        if car > rb2.highWaterMarkRead then car else rb2.highWaterMarkRead }
  let caw := rb3.available_write
  let rb4 : RingBuffer :=
    { rb3 with
      highWaterMarkWrite :=
        if caw > rb3.highWaterMarkWrite then caw else rb3.highWaterMarkWrite }
  (rb4, to_write)

/-- `RingBuffer::update_read_ptr`: adopts the consumer's published read
index from shared slot 0, accounting reads and underruns, then refreshes the
high-water marks. -/
def RingBuffer.update_read_ptr (rb : RingBuffer) : RingBuffer :=
  let js_read_ptr := rb.metaRead
  let old_read_ptr := rb.readPtr
  let samples_read :=
    if js_read_ptr ≥ old_read_ptr then js_read_ptr - old_read_ptr
    else BUFFER_SIZE - old_read_ptr + js_read_ptr
  let write_ptr := rb.writePtr
  let available_before_read :=
    if write_ptr ≥ old_read_ptr then write_ptr - old_read_ptr
    else BUFFER_SIZE - old_read_ptr + write_ptr
  let rb1 : RingBuffer :=
    { rb with
      totalReads := if samples_read > 0 then rb.totalReads + 1 else rb.totalReads
      totalSamplesRead :=
        if samples_read > 0 then rb.totalSamplesRead + samples_read
        else rb.totalSamplesRead
      totalUnderruns :=
        if samples_read > 0 ∧ samples_read > available_before_read then
          rb.totalUnderruns + 1
        else rb.totalUnderruns
      readPtr := js_read_ptr }
  let car := rb1.available_read
  let rb2 : RingBuffer :=
    { rb1 with
      highWaterMarkRead :=
        if car > rb1.highWaterMarkRead then car else rb1.highWaterMarkRead }
  let caw := rb2.available_write
  { rb2 with
    highWaterMarkWrite :=
      if caw > rb2.highWaterMarkWrite then caw else rb2.highWaterMarkWrite }

/-- `RingBuffer::clear`: resets the two local atomics and the two shared
metadata slots to zero; the metrics are deliberately left alone. -/
def RingBuffer.clear (rb : RingBuffer) : RingBuffer :=
  { rb with readPtr := 0, writePtr := 0, metaRead := 0, metaWrite := 0 }

/-- A ring buffer with given write and read pointers (mirrored into the
shared slots) over a zeroed sample region and fresh metrics. -/
def rbAt (w r : ℕ) : RingBuffer :=
  { RingBuffer.new with writePtr := w, metaWrite := w, readPtr := r, metaRead := r }

/-- Per-stream drift statistics (`opus_mixer/drift_stats.rs`). -/
structure DriftStats where
  max_drift_seconds : ℚ
  total_drift_seconds : ℚ
  drift_samples : ℕ
  max_compensation : ℚ
  total_compensation : ℚ
  compensation_samples : ℕ
deriving DecidableEq

/-- `DriftStats::new`. -/
def DriftStats.new : DriftStats where
  max_drift_seconds := 0
  total_drift_seconds := 0
  drift_samples := 0
  max_compensation := 1
  total_compensation := 0
  compensation_samples := 0

/-- `DriftStats::update_drift`. -/
def DriftStats.update_drift (d : DriftStats) (drift_seconds : ℚ) : DriftStats :=
  { d with
    max_drift_seconds := max d.max_drift_seconds |drift_seconds|
    total_drift_seconds := d.total_drift_seconds + |drift_seconds|
    drift_samples := d.drift_samples + 1 }

/-- `DriftStats::update_compensation`: only compensations more than `1e-4`
away from `1.0` are recorded. -/
def DriftStats.update_compensation (d : DriftStats) (compensation : ℚ) : DriftStats :=
  if |compensation - 1| > 1 / 10000 then
    { d with
      max_compensation := max d.max_compensation (|compensation - 1| + 1)
      total_compensation := d.total_compensation + compensation
      compensation_samples := d.compensation_samples + 1 }
  else d

/-- The `opus::Channels` layout the decoder is created with. -/
inductive Channels where
  | mono
  | stereo
deriving DecidableEq

/-- State of one `AudioStream` (`opus_mixer/audio_stream.rs`).  The Ogg
packet reader cursor is external; the decoder is represented by the channel
layout it was created with (`none` before `OpusTags` is seen). -/
structure AudioStream where
  decoder : Option Channels
  header_processed : Bool
  comments_processed : Bool
  decoded_buffer : List ℚ
  total_samples_decoded : ℕ
  current_granule_position : ℤ
  drift_compensation : ℚ
  drift_stats : DriftStats
  channel_count : ℕ

/-- `AudioStream::new`: no decoder, a stereo-sized scratch, mono default
channel count, unit compensation. -/
def AudioStream.new : AudioStream where
  decoder := none
  header_processed := false
  comments_processed := false
  decoded_buffer := List.replicate (FRAME_SIZE * CHANNELS) 0
  total_samples_decoded := 0
  current_granule_position := 0
  drift_compensation := 1
  drift_stats := DriftStats.new
  channel_count := 1

/-- The `"OpusHead"` magic bytes. -/
def OPUS_HEAD_MAGIC : List ℕ := [79, 112, 117, 115, 72, 101, 97, 100]

/-- The `"OpusTags"` magic bytes. -/
def OPUS_TAGS_MAGIC : List ℕ := [79, 112, 117, 115, 84, 97, 103, 115]

/-- `is_opus_header` from `opus_mixer/mod.rs`. -/
def is_opus_header (packet : List ℕ) : Bool :=
  decide (packet.length ≥ OPUS_HEAD_MAGIC.length) &&
    packet.take OPUS_HEAD_MAGIC.length == OPUS_HEAD_MAGIC

/-- `is_opus_tags` from `opus_mixer/mod.rs`. -/
def is_opus_tags (packet : List ℕ) : Bool :=
  decide (packet.length ≥ OPUS_TAGS_MAGIC.length) &&
    packet.take OPUS_TAGS_MAGIC.length == OPUS_TAGS_MAGIC

/-- Outcome of the external `opus::Decoder::decode_float` call: a decoded
sample count together with the scratch contents it left behind, or a
decoder error. -/
inductive DecodeResult where
  | ok (decoded_samples : ℕ) (buf : List ℚ)
  | err

/-- Results of the external calls one `process_next_packet` invocation can
make: the Ogg `read_packet` (packet bytes, end of stream, or a parse
error), the fallible `Decoder::new`, and `decode_float`. -/
structure Externals where
  read_packet : Except String (Option (List ℕ))
  decoder_new : Except String Unit
  decode_float : DecodeResult

/-- `AudioStream::process_next_packet`: consume one Ogg packet; parse the
`OpusHead` (channel count at byte 9, scratch resized to
`FRAME_SIZE * channel_count`) and `OpusTags` (decoder created, coercing
unsupported channel counts to stereo) headers; afterwards decode, advancing
`total_samples_decoded` and `current_granule_position` by the decoded count
on success and leaving the stream untouched on a decoder error. -/
def AudioStream.process_next_packet (s : AudioStream) (ext : Externals) :
    Except String (AudioStream × Option ℕ) :=
  match ext.read_packet with
  | .error e => .error e
  | .ok none => .ok (s, none)
  | .ok (some pkt) =>
    if !s.header_processed || !s.comments_processed then
      if !s.header_processed then
        if is_opus_header pkt then
          let s1 :=
            if pkt.length ≥ 10 then
              let cc := pkt.getD 9 0
              { s with
                channel_count := cc
                decoded_buffer := List.replicate (FRAME_SIZE * cc) 0 }
            else s
          .ok ({ s1 with header_processed := true }, none)
        else .ok (s, none)
      else
        if is_opus_tags pkt then
          let channels :=
            match s.channel_count with
            | 1 => Channels.mono
            | 2 => Channels.stereo
            | _ => Channels.stereo
          match ext.decoder_new with
          | .error e => .error e
          | .ok _ =>
            .ok ({ s with comments_processed := true, decoder := some channels }, none)
        else .ok (s, none)
    else
      match s.decoder with
      | some _ =>
        match ext.decode_float with
        | .ok k buf =>
          .ok ({ s with
                  decoded_buffer := buf
                  total_samples_decoded := s.total_samples_decoded + k
                  current_granule_position := s.current_granule_position + k },
               some k)
        | .err => .ok (s, none)
      | none => .ok (s, none)

/-- State of the `AudioMixer` (`opus_mixer/audio_mixer.rs`). -/
structure AudioMixer where
  streams : List AudioStream
  active_streams : ℕ
  stream_finished : List Bool
  mixed_buffer : List ℚ
  start_timestamp : ℚ
  target_granule : ℤ
  last_sync_check : ℤ
  sync_interval : ℤ
  max_sync_drift : ℚ

/-- Truncation of a rational toward zero, the semantics of Rust's
`as i64` cast on a non-NaN in-range `f64`. -/
def ratTrunc (q : ℚ) : ℤ := q.num.tdiv (q.den : ℤ)

/-- `AudioMixer::new` (after the per-file stream construction): all streams
active, a stereo frame scratch, the mix clock and `last_sync_check` seeded
from the start timestamp, sync interval of one second of samples. -/
def AudioMixer.new (streams : List AudioStream) (start_timestamp : ℚ) : AudioMixer where
  streams := streams
  active_streams := streams.length
  stream_finished := List.replicate streams.length false
  mixed_buffer := List.replicate (FRAME_SIZE * CHANNELS) 0
  start_timestamp := start_timestamp
  target_granule := ratTrunc (start_timestamp * (SAMPLE_RATE : ℚ))
  last_sync_check := ratTrunc (start_timestamp * (SAMPLE_RATE : ℚ))
  sync_interval := (SAMPLE_RATE : ℤ)
  max_sync_drift := 0

/-- `i64::MAX`, the initial `min_pos` of the sync scan. -/
def I64_MAX : ℤ := 9223372036854775807

/-- `i64::MIN`, the initial `max_pos` of the sync scan. -/
def I64_MIN : ℤ := -9223372036854775808

/-- Accumulator of the first loop of `check_sync`. -/
structure SyncScan where
  total_pos : ℤ
  active_count : ℤ
  min_pos : ℤ
  max_pos : ℤ
deriving DecidableEq

/-- One step of the position scan: unfinished streams contribute their
granule position to the running total, count, min and max. -/
def scanStep (acc : SyncScan) (x : AudioStream × Bool) : SyncScan :=
  if x.2 = false then
    { total_pos := acc.total_pos + x.1.current_granule_position
      active_count := acc.active_count + 1
      min_pos := min acc.min_pos x.1.current_granule_position
      max_pos := max acc.max_pos x.1.current_granule_position }
  else acc

/-- The position scan over `streams` paired with the `stream_finished`
flags, starting from `(0, 0, i64::MAX, i64::MIN)`. -/
def syncScan (streams : List AudioStream) (fins : List Bool) : SyncScan :=
  (streams.zip fins).foldl scanStep ⟨0, 0, I64_MAX, I64_MIN⟩

/-- The per-stream body of the `check_sync` compensation loop: measure the
drift against the average position, record it, and either set
`drift_compensation = 1 ∓ min(|drift_sec|, 0.02·elapsed/48000)` (attenuate a
stream that is ahead, boost one that is behind) when `|drift_sec| > 1 ms`,
or reset it to `1.0`. -/
def syncStream (avg_pos : ℤ) (elapsed : ℤ) (s : AudioStream) : AudioStream :=
  let drift : ℚ := (s.current_granule_position : ℚ) - (avg_pos : ℚ)
  let drift_seconds : ℚ := drift / (SAMPLE_RATE : ℚ)
  let stats1 := s.drift_stats.update_drift drift_seconds
  let max_adjustment : ℚ := 2 / 100 * (elapsed : ℚ) / (SAMPLE_RATE : ℚ)
  if |drift_seconds| > 1 / 1000 then
    let adjustment : ℚ := min (|drift_seconds| / 1) max_adjustment
    let comp : ℚ := if drift > 0 then 1 - adjustment else 1 + adjustment
    { s with
      drift_compensation := comp
      drift_stats := stats1.update_compensation comp }
  else
    { s with drift_compensation := 1, drift_stats := stats1 }

/-- `AudioMixer::check_sync`: return unchanged before one `sync_interval`
has elapsed on the mix clock; otherwise scan the unfinished streams and,
when more than one is active, update `max_sync_drift` and apply
`syncStream` to every unfinished stream; finally advance
`last_sync_check` to `target_granule`. -/
def AudioMixer.check_sync (m : AudioMixer) : AudioMixer :=
  if m.target_granule - m.last_sync_check < m.sync_interval then m
  else
    let scan := syncScan m.streams m.stream_finished
    let m1 :=
      if scan.active_count > 1 then
        let avg_pos := scan.total_pos.tdiv scan.active_count
        let current_max_drift : ℚ := ((scan.max_pos - scan.min_pos : ℤ) : ℚ) / (SAMPLE_RATE : ℚ)
        let elapsed := m.target_granule - m.last_sync_check
        { m with
          max_sync_drift := max m.max_sync_drift current_max_drift
          streams :=
            (m.streams.zip m.stream_finished).map
              (fun x => if x.2 = false then syncStream avg_pos elapsed x.1 else x.1) }
      else m
    { m1 with last_sync_check := m1.target_granule }

/-- The accumulation loop of `mix_next_samples` for one stream, iterating
`n` more times from index `i`:
`mixed_buffer[i] += decoded[i] * compensation / active_streams`.  Rust's
panicking slice indexing is rendered as `none`. -/
def mixLoop (decoded : List ℚ) (compensation : ℚ) (active_streams : ℕ) :
    List ℚ → ℕ → ℕ → Option (List ℚ)
  | mixed, _, 0 => some mixed
  | mixed, i, n + 1 =>
    match mixed[i]?, decoded[i]? with
    | some mv, some dv =>
      mixLoop decoded compensation active_streams
        (mixed.set i (mv + dv * compensation / (active_streams : ℚ))) (i + 1) n
    | _, _ => none

/-- The contribution of one stream that decoded `decoded_samples` samples,
as performed by `mix_next_samples`: `decoded_samples * CHANNELS` entries of
the stream's decoded scratch are accumulated into the mixed buffer. -/
def AudioMixer.accumulate_stream (m : AudioMixer) (s : AudioStream)
    (decoded_samples : ℕ) : Option (List ℚ) :=
  mixLoop s.decoded_buffer s.drift_compensation m.active_streams
    m.mixed_buffer 0 (decoded_samples * CHANNELS)

/-- State of `OpusSource` (`opus_source.rs`). -/
structure OpusSource where
  sample_rate : ℚ
  ring_buffer : RingBuffer
  mixer : Option AudioMixer
  is_running : Bool
  file_loaded : Bool

/-- `OpusSource::new`. -/
def OpusSource.new (sample_rate : ℚ) : OpusSource where
  sample_rate := sample_rate
  ring_buffer := RingBuffer.new
  mixer := none
  is_running := false
  file_loaded := false

/-- A single call to `mixer.mix_next_samples()`, abstracted as a state
transition: the new mixer state together with the mixed frame, where `none`
covers both `Ok(None)` (mixer stall) and `Err` — the two cases the `process`
loop of `opus_source.rs` treats identically by stopping without a write. -/
def MixStep : Type := AudioMixer → AudioMixer × Option (List ℚ)

/-- Result of the frame loop in `OpusSource::process`, with the mixer and
ring-buffer state it ends in, the running total of samples written, the
number of `mix_next_samples` calls made, and whether the loop exited before
exhausting its iteration budget. -/
structure LoopResult where
  mixer : AudioMixer
  rb : RingBuffer
  total_samples_written : ℕ
  frames_attempted : ℕ
  early_stop : Bool

/-- The frame loop of `OpusSource::process`: up to `n` more times, request a
frame from the mixer and write it to the ring buffer, stopping early on a
mixer stall or a partial write. -/
def processLoop (step : MixStep) :
    AudioMixer → RingBuffer → ℕ → ℕ → ℕ → LoopResult
  | mx, rb, 0, total, att => ⟨mx, rb, total, att, false⟩
  | mx, rb, n + 1, total, att =>
    match step mx with
    | (mx', some mixed_samples) =>
      let wr := rb.write mixed_samples
      if wr.2 < mixed_samples.length then
        ⟨mx', wr.1, total + wr.2, att + 1, true⟩
      else processLoop step mx' wr.1 n (total + wr.2) (att + 1)
    | (mx', none) => ⟨mx', rb, total, att + 1, true⟩

/-- The iteration budget of the frame loop:
`min(⌈num_samples / FRAME_SIZE⌉, available_write / (FRAME_SIZE * 2))`,
computed against the refreshed ring buffer. -/
def frames_bound (rb : RingBuffer) (num_samples : ℕ) : ℕ :=
  min ((num_samples + FRAME_SIZE - 1) / FRAME_SIZE)
    (rb.available_write / (FRAME_SIZE * 2))

/-- `OpusSource::process`: return `0` untouched when not running or no
mixer is loaded; otherwise refresh the read pointer, cap the requested
frame count by the available space, run the frame loop, and return the
total number of samples written. -/
def OpusSource.process (src : OpusSource) (step : MixStep) (num_samples : ℕ) :
    OpusSource × ℕ :=
  if !src.is_running || src.mixer.isNone then (src, 0)
  else
    match src.mixer with
    | none => (src, 0)
    | some mx =>
      let rb := src.ring_buffer.update_read_ptr
      let available_samples := rb.available_write
      let frames_to_process := (num_samples + FRAME_SIZE - 1) / FRAME_SIZE
      let available_frames := available_samples / (FRAME_SIZE * 2)
      let frames_to_process :=
        if frames_to_process > available_frames then available_frames
        else frames_to_process
      let res := processLoop step mx rb frames_to_process 0 0
      ({ src with ring_buffer := res.rb, mixer := some res.mixer },
       res.total_samples_written)

/-- The frame-loop result `OpusSource::process` commits when running with a
loaded mixer. -/
def OpusSource.process_loop_result (src : OpusSource) (step : MixStep)
    (num_samples : ℕ) (mx : AudioMixer) : LoopResult :=
  processLoop step mx src.ring_buffer.update_read_ptr
    (frames_bound src.ring_buffer.update_read_ptr num_samples) 0 0

/-- Samples elapsed on the mix clock since the last sync check. -/
def AudioMixer.sync_elapsed (m : AudioMixer) : ℤ :=
  m.target_granule - m.last_sync_check

/-- The average position `check_sync` divides by `active_count` (Rust `i64`
division truncates toward zero). -/
def AudioMixer.avg_pos (m : AudioMixer) : ℤ :=
  (syncScan m.streams m.stream_finished).total_pos.tdiv
    (syncScan m.streams m.stream_finished).active_count

/-- Drift of stream `i` against the average position, in samples. -/
def AudioMixer.stream_drift (m : AudioMixer) (i : ℕ) : ℚ :=
  ((m.streams.getD i AudioStream.new).current_granule_position : ℚ) -
    (m.avg_pos : ℚ)

/-- Drift of stream `i` in seconds. -/
def AudioMixer.stream_drift_seconds (m : AudioMixer) (i : ℕ) : ℚ :=
  m.stream_drift i / (SAMPLE_RATE : ℚ)

/-- The adjustment cap `0.02 * (target_granule - last_sync_check) / 48000`. -/
def AudioMixer.max_adjustment (m : AudioMixer) : ℚ :=
  2 / 100 * (m.sync_elapsed : ℚ) / (SAMPLE_RATE : ℚ)

/-- The adjustment `check_sync` applies to stream `i`:
`min(|drift_sec| / 1.0, max_adjustment)`. -/
def AudioMixer.stream_adjustment (m : AudioMixer) (i : ℕ) : ℚ :=
  min (|m.stream_drift_seconds i| / 1) m.max_adjustment

/-- A stream that has both headers processed and a stereo decoder, sitting
at granule position `pos`. -/
def streamAt (pos : ℤ) : AudioStream :=
  { AudioStream.new with
    header_processed := true
    comments_processed := true
    decoder := some Channels.stereo
    channel_count := 2
    current_granule_position := pos }

/-- A freshly constructed two-stream mixer at positions `p0`, `p1`, with its
mix clock advanced to `tg`. -/
def mixerPair (p0 p1 tg : ℤ) : AudioMixer :=
  { AudioMixer.new [streamAt p0, streamAt p1] 0 with
    target_granule := tg
    last_sync_check := 0 }

/-- Two streams 2880 samples apart after two seconds without a sync check:
stream 0 drifts by 30 ms. -/
def mixerHighDrift : AudioMixer := mixerPair 2880 0 96000

/-- Two streams 480 samples apart after exactly one sync interval: stream 0
drifts by 5 ms. -/
def mixerSmallDrift : AudioMixer := mixerPair 480 0 48000

/-- A mixer holding a single unfinished stream that carries a compensation
of `0.97` from an earlier sync cycle, due for another sync check. -/
def mixerSingle : AudioMixer :=
  { AudioMixer.new [{ streamAt 1000 with drift_compensation := 97 / 100 }] 0 with
    target_granule := 48000
    last_sync_check := 0 }

/-- A stream whose `OpusHead` declared one channel: the decoded scratch was
resized to `FRAME_SIZE * 1` and a mono decoder was created. -/
def monoStream : AudioStream :=
  { AudioStream.new with
    header_processed := true
    comments_processed := true
    decoder := some Channels.mono
    channel_count := 1
    decoded_buffer := List.replicate FRAME_SIZE 0 }

/-- A single-stream mixer over the mono stream, as `load_file` builds it. -/
def mixerMono : AudioMixer := AudioMixer.new [monoStream] 0

/-- A stream ready to decode (both headers seen, stereo decoder). -/
def streamReady : AudioStream := streamAt 0

/-- External results for one call: a packet arrives and the decoder fails. -/
def extErr : Externals where
  read_packet := .ok (some [1, 2, 3])
  decoder_new := .ok ()
  decode_float := .err

/-- External results for one call: a packet arrives and decodes to a full
stereo frame. -/
def extOk : Externals where
  read_packet := .ok (some [1, 2, 3])
  decoder_new := .ok ()
  decode_float := .ok FRAME_SIZE (List.replicate (FRAME_SIZE * CHANNELS) 0)

/-- A mixer step that always stalls (yields no frame). -/
def stepStall : MixStep := fun m => (m, none)

/-- The mixer of an empty file list. -/
def mixerEmpty : AudioMixer := AudioMixer.new [] 0

/-- A running source with a loaded mixer. -/
def srcRunning : OpusSource :=
  { OpusSource.new 48000 with
    is_running := true
    mixer := some mixerEmpty
    file_loaded := true }

/-- A source that has never been started and has no mixer. -/
def srcIdle : OpusSource := OpusSource.new 48000

theorem check_sync_last_advances (m : AudioMixer)
    (helapsed : m.sync_interval ≤ m.target_granule - m.last_sync_check) :
    m.check_sync.last_sync_check = m.target_granule := by
  unfold AudioMixer.check_sync
  rw [if_neg (not_lt.mpr helapsed)]
  dsimp only
  split <;> rfl

theorem check_sync_getD (m : AudioMixer) (i : ℕ)
    (hlen : m.stream_finished.length = m.streams.length)
    (hi : i < m.streams.length)
    (helapsed : m.sync_interval ≤ m.target_granule - m.last_sync_check)
    (hactive : 1 < (syncScan m.streams m.stream_finished).active_count)
    (hfin : m.stream_finished.getD i true = false) :
    m.check_sync.streams.getD i AudioStream.new =
      syncStream m.avg_pos m.sync_elapsed (m.streams.getD i AudioStream.new) := by
  unfold AudioMixer.check_sync
  rw [if_neg (not_lt.mpr helapsed)]
  dsimp only
  rw [if_pos (show (syncScan m.streams m.stream_finished).active_count > 1 from hactive)]
  dsimp only
  have hzip : i < (m.streams.zip m.stream_finished).length := by
    rw [List.length_zip]; omega
  have hmap : i < ((m.streams.zip m.stream_finished).map
      (fun x => if x.2 = false then
        syncStream ((syncScan m.streams m.stream_finished).total_pos.tdiv
          (syncScan m.streams m.stream_finished).active_count)
          (m.target_granule - m.last_sync_check) x.1 else x.1)).length := by
    rw [List.length_map]; exact hzip
  rw [List.getD_eq_getElem _ _ hmap, List.getElem_map, List.getElem_zip]
  have hib : i < m.stream_finished.length := by omega
  have hfin' : m.stream_finished[i] = false := by
    rw [← List.getD_eq_getElem m.stream_finished true hib]; exact hfin
  rw [hfin']
  rw [if_pos rfl]
  rw [List.getD_eq_getElem _ _ hi]
  rfl

theorem syncStream_drift_compensation (avg_pos elapsed : ℤ) (s : AudioStream) :
    (syncStream avg_pos elapsed s).drift_compensation =
      if |((s.current_granule_position : ℚ) - (avg_pos : ℚ)) / (SAMPLE_RATE : ℚ)| >
          1 / 1000 then
        (if ((s.current_granule_position : ℚ) - (avg_pos : ℚ)) > 0 then
          1 - min (|((s.current_granule_position : ℚ) - (avg_pos : ℚ)) /
                (SAMPLE_RATE : ℚ)| / 1)
              (2 / 100 * (elapsed : ℚ) / (SAMPLE_RATE : ℚ))
         else
          1 + min (|((s.current_granule_position : ℚ) - (avg_pos : ℚ)) /
                (SAMPLE_RATE : ℚ)| / 1)
              (2 / 100 * (elapsed : ℚ) / (SAMPLE_RATE : ℚ)))
      else 1 := by
  unfold syncStream
  dsimp only
  split <;> rfl

theorem mixLoop_oob (decoded : List ℚ) (c : ℚ) (a : ℕ) :
    ∀ n i mixed, i ≤ decoded.length → decoded.length < i + n →
      mixLoop decoded c a mixed i n = none := by
  intro n
  induction n with
  | zero => intro i mixed h1 h2; omega
  | succ k ih =>
    intro i mixed h1 h2
    rcases eq_or_lt_of_le h1 with he | hl
    · have hd : decoded[i]? = none := by
        rw [List.getElem?_eq_none_iff]; omega
      unfold mixLoop
      rw [hd]
      cases mixed[i]? <;> rfl
    · unfold mixLoop
      cases hd : decoded[i]? with
      | none =>
        rw [List.getElem?_eq_none_iff] at hd
        omega
      | some dv =>
        cases hm : mixed[i]? with
        | none => rfl
        | some mv => exact ih (i + 1) _ (by omega) (by omega)

theorem write_totalSamplesWritten (rb : RingBuffer) (s : List ℚ) :
    (rb.write s).1.totalSamplesWritten = rb.totalSamplesWritten + (rb.write s).2 :=
  rfl

theorem processLoop_spec (step : MixStep) :
    ∀ n mx rb total att,
      (processLoop step mx rb n total att).frames_attempted ≤ att + n ∧
      ((processLoop step mx rb n total att).early_stop = false →
        (processLoop step mx rb n total att).frames_attempted = att + n) ∧
      (processLoop step mx rb n total att).total_samples_written +
          rb.totalSamplesWritten =
        total + (processLoop step mx rb n total att).rb.totalSamplesWritten := by
  intro n
  induction n with
  | zero =>
    intro mx rb total att
    exact ⟨by simp [processLoop], fun _ => by simp [processLoop],
      by simp [processLoop]⟩
  | succ k ih =>
    intro mx rb total att
    unfold processLoop
    cases hstep : step mx with
    | mk mx' out =>
      cases out with
      | none => exact ⟨by simp, by simp, by simp⟩
      | some mixed =>
        dsimp only
        by_cases hw : (rb.write mixed).2 < mixed.length
        · rw [if_pos hw]
          refine ⟨by simp, by simp, ?_⟩
          dsimp only
          rw [write_totalSamplesWritten]
          omega
        · rw [if_neg hw]
          obtain ⟨ha, hb, hc⟩ := ih mx' (rb.write mixed).1
            (total + (rb.write mixed).2) (att + 1)
          refine ⟨by omega, fun hes => ?_, ?_⟩
          · rw [hb hes]; omega
          · rw [write_totalSamplesWritten] at hc
            omega

theorem minIf (a b : ℕ) : (if a > b then b else a) = min a b := by
  split <;> omega

theorem mixerHighDrift_ds : mixerHighDrift.stream_drift_seconds 0 = 3 / 100 := by
  rw [AudioMixer.stream_drift_seconds, AudioMixer.stream_drift,
    show mixerHighDrift.avg_pos = 1440 from by decide,
    show (mixerHighDrift.streams.getD 0 AudioStream.new).current_granule_position =
      2880 from rfl]
  norm_num [SAMPLE_RATE]

theorem mixerSmallDrift_drift : mixerSmallDrift.stream_drift 0 = 240 := by
  rw [AudioMixer.stream_drift,
    show mixerSmallDrift.avg_pos = 240 from by decide,
    show (mixerSmallDrift.streams.getD 0 AudioStream.new).current_granule_position =
      480 from rfl]
  norm_num

theorem mixerSmallDrift_ds : mixerSmallDrift.stream_drift_seconds 0 = 1 / 200 := by
  rw [AudioMixer.stream_drift_seconds, mixerSmallDrift_drift]
  norm_num [SAMPLE_RATE]

/-- C1: the claim states that `RingBuffer::write` stores the `k` accepted
samples at logical slots `(w + i) mod N` and publishes `(w + k) mod N`, with
`N = 7680`.  The code instead masks with `N - 1 = 7679`, which is not a
modulo because 7680 is not a power of two (its own comment demands one):
writing one sample at `write_ptr = 512`, `read_ptr = 0` stores it at slot
`512 & 7679 = 0`, not `512 mod 7680 = 512`, and publishes write index
`513 & 7679 = 1`, not `513` — in the local atomic and shared slot alike. -/
theorem ring_buffer_write_mask_diverges_from_modulo :
    ((rbAt 512 0).write [5]).2 = 1 ∧
    ((rbAt 512 0).write [5]).1.data 0 = 5 ∧
    ((rbAt 512 0).write [5]).1.data ((512 + 0) % BUFFER_SIZE) = 0 ∧
    ((rbAt 512 0).write [5]).1.writePtr = 1 ∧
    ((rbAt 512 0).write [5]).1.writePtr ≠ (512 + 1) % BUFFER_SIZE ∧
    ((rbAt 512 0).write [5]).1.metaWrite ≠ (512 + 1) % BUFFER_SIZE :=
  ⟨rfl, rfl, rfl, rfl, by decide, by decide⟩

/-- C2: the claim states the mixer reads exactly `k × input_channels`
entries of a stream's decoded buffer (never past its length) and up-mixes
mono into both stereo channels.  The accumulation loop of
`mix_next_samples` instead always reads `k × CHANNELS = k × 2` entries: for
a mono stream (decoded buffer of length `FRAME_SIZE × 1 = 960`) decoding a
full frame of `k = 960` samples it indexes the buffer up to 1919 and
panics out of bounds (`none` in this model). -/
theorem mixer_mono_accumulation_reads_out_of_bounds :
    mixerMono.accumulate_stream monoStream FRAME_SIZE = none ∧
    monoStream.decoded_buffer.length = FRAME_SIZE * monoStream.channel_count ∧
    FRAME_SIZE * CHANNELS > monoStream.decoded_buffer.length := by
  have hlen : monoStream.decoded_buffer.length = 960 := by
    show (List.replicate FRAME_SIZE (0 : ℚ)).length = 960
    rw [List.length_replicate]
    rfl
  refine ⟨?_, ?_, ?_⟩
  · apply mixLoop_oob
    · rw [hlen]; omega
    · rw [hlen]; norm_num [FRAME_SIZE, CHANNELS]
  · rw [hlen]; norm_num [FRAME_SIZE, monoStream]
  · rw [hlen]; norm_num [FRAME_SIZE, CHANNELS]

/-- C3 counterexample: a `check_sync` cycle in which two sync intervals
elapsed (96000 samples) and stream 0 drifts by 30 ms assigns it a
compensation of `0.97`, outside the claimed band `[1 - 0.02, 1 + 0.02]`, so
the band does not hold regardless of the elapsed amount. -/
theorem check_sync_compensation_escapes_fixed_band :
    1 / 1000 < |mixerHighDrift.stream_drift_seconds 0| ∧
    ¬(1 - 2 / 100 ≤
        (mixerHighDrift.check_sync.streams.getD 0 AudioStream.new).drift_compensation ∧
      (mixerHighDrift.check_sync.streams.getD 0 AudioStream.new).drift_compensation ≤
        1 + 2 / 100) := by
  have habs : |(3 : ℚ) / 100| = 3 / 100 := abs_of_nonneg (by norm_num)
  have hcomp : (mixerHighDrift.check_sync.streams.getD 0 AudioStream.new).drift_compensation
      = 97 / 100 := by
    rw [check_sync_getD mixerHighDrift 0 rfl (by decide) (by decide) (by decide) (by decide),
      syncStream_drift_compensation,
      show (mixerHighDrift.streams.getD 0 AudioStream.new).current_granule_position =
        2880 from rfl,
      show mixerHighDrift.avg_pos = 1440 from by decide,
      show mixerHighDrift.sync_elapsed = 96000 from by decide]
    norm_num [SAMPLE_RATE, habs]
  rw [mixerHighDrift_ds, hcomp, habs]
  norm_num

/-- C3 (amended): for every unfinished stream measured with
`|drift_seconds| > 0.001` in a `check_sync` cycle (more than one stream
active, at least one `sync_interval` of 48000 elapsed), the assigned
`drift_compensation` lies within
`[1 - 0.02·(target_granule - last_sync_check)/48000,
  1 + 0.02·(target_granule - last_sync_check)/48000]`; the fixed band
`[0.98, 1.02]` is the special case of exactly one elapsed interval. -/
theorem check_sync_compensation_within_elapsed_band (m : AudioMixer) (i : ℕ)
    (hlen : m.stream_finished.length = m.streams.length)
    (hi : i < m.streams.length)
    (helapsed : m.sync_interval ≤ m.target_granule - m.last_sync_check)
    (hactive : 1 < (syncScan m.streams m.stream_finished).active_count)
    (hfin : m.stream_finished.getD i true = false)
    (hsi : m.sync_interval = (SAMPLE_RATE : ℤ))
    (hdrift : 1 / 1000 < |m.stream_drift_seconds i|) :
    |(m.check_sync.streams.getD i AudioStream.new).drift_compensation - 1| ≤
      m.max_adjustment := by
  rw [check_sync_getD m i hlen hi helapsed hactive hfin,
    syncStream_drift_compensation]
  simp only [AudioMixer.stream_drift_seconds, AudioMixer.stream_drift,
    AudioMixer.max_adjustment, AudioMixer.sync_elapsed, AudioMixer.avg_pos]
    at hdrift ⊢
  rw [if_pos (show _ > _ from hdrift)]
  have hel : (0 : ℤ) ≤ m.target_granule - m.last_sync_check := by
    have h48 : ((SAMPLE_RATE : ℕ) : ℤ) = 48000 := by norm_num [SAMPLE_RATE]
    rw [hsi, h48] at helapsed
    omega
  have h0 : (0 : ℚ) ≤ 2 / 100 * ((m.target_granule - m.last_sync_check : ℤ) : ℚ) /
      (SAMPLE_RATE : ℚ) := by
    apply div_nonneg
    · apply mul_nonneg (by norm_num)
      exact_mod_cast hel
    · norm_num [SAMPLE_RATE]
  have hadj0 : (0 : ℚ) ≤ min
      (|(((m.streams.getD i AudioStream.new).current_granule_position : ℚ) -
        (((syncScan m.streams m.stream_finished).total_pos.tdiv
          (syncScan m.streams m.stream_finished).active_count : ℤ) : ℚ)) /
        (SAMPLE_RATE : ℚ)| / 1)
      (2 / 100 * ((m.target_granule - m.last_sync_check : ℤ) : ℚ) /
        (SAMPLE_RATE : ℚ)) :=
    le_min (by positivity) h0
  split
  · rw [show ∀ x : ℚ, 1 - x - 1 = -x from fun x => by ring, abs_neg,
      abs_of_nonneg hadj0]
    exact min_le_right _ _
  · rw [show ∀ x : ℚ, 1 + x - 1 = x from fun x => by ring,
      abs_of_nonneg hadj0]
    exact min_le_right _ _

/-- C3 witness: the amended bound instantiated at a cycle with two elapsed
intervals and a 30 ms drift on stream 0. -/
theorem check_sync_compensation_within_elapsed_band_witness :
    1 / 1000 < |mixerHighDrift.stream_drift_seconds 0| ∧
    |(mixerHighDrift.check_sync.streams.getD 0 AudioStream.new).drift_compensation - 1| ≤
      mixerHighDrift.max_adjustment :=
  ⟨by rw [mixerHighDrift_ds, abs_of_nonneg (by norm_num : (0:ℚ) ≤ 3 / 100)]; norm_num,
   check_sync_compensation_within_elapsed_band mixerHighDrift 0 rfl (by decide)
     (by decide) (by decide) (by decide) rfl
     (by rw [mixerHighDrift_ds, abs_of_nonneg (by norm_num : (0:ℚ) ≤ 3 / 100)]; norm_num)⟩

/-- C4: during a sync check (more than one unfinished stream, at least one
`sync_interval` elapsed), an unfinished stream with `|drift_sec| > 0.001`
receives `drift_compensation = 1 + adjustment` when behind the average
position and `1 - adjustment` when ahead, with
`adjustment = min(|drift_sec| / 1, 0.02·(target_granule - last_sync_check)/48000)`;
a stream with `|drift_sec| ≤ 0.001` is reset to `1.0`; and
`last_sync_check` is advanced to `target_granule`. -/
theorem check_sync_compensation_update (m : AudioMixer) (i : ℕ)
    (hlen : m.stream_finished.length = m.streams.length)
    (hi : i < m.streams.length)
    (helapsed : m.sync_interval ≤ m.target_granule - m.last_sync_check)
    (hactive : 1 < (syncScan m.streams m.stream_finished).active_count)
    (hfin : m.stream_finished.getD i true = false) :
    ((1 / 1000 < |m.stream_drift_seconds i| →
       ((m.stream_drift i < 0 →
          (m.check_sync.streams.getD i AudioStream.new).drift_compensation =
            1 + m.stream_adjustment i) ∧
        (0 < m.stream_drift i →
          (m.check_sync.streams.getD i AudioStream.new).drift_compensation =
            1 - m.stream_adjustment i))) ∧
     (|m.stream_drift_seconds i| ≤ 1 / 1000 →
       (m.check_sync.streams.getD i AudioStream.new).drift_compensation = 1)) ∧
    m.check_sync.last_sync_check = m.target_granule := by
  refine ⟨?_, check_sync_last_advances m helapsed⟩
  rw [check_sync_getD m i hlen hi helapsed hactive hfin,
    syncStream_drift_compensation]
  simp only [AudioMixer.stream_drift_seconds, AudioMixer.stream_drift,
    AudioMixer.stream_adjustment, AudioMixer.max_adjustment,
    AudioMixer.sync_elapsed, AudioMixer.avg_pos]
  constructor
  · intro hds
    rw [if_pos (show _ > _ from hds)]
    constructor
    · intro hneg
      rw [if_neg (not_lt.mpr (le_of_lt hneg))]
    · intro hpos
      rw [if_pos (show _ > _ from hpos)]
  · intro hle
    rw [if_neg (not_lt.mpr hle)]

/-- C4 witness: a cycle with one elapsed interval and stream 0 ahead by
5 ms gets `1 - adjustment`, and the sync clock advances. -/
theorem check_sync_compensation_update_witness :
    1 / 1000 < |mixerSmallDrift.stream_drift_seconds 0| ∧
    0 < mixerSmallDrift.stream_drift 0 ∧
    (mixerSmallDrift.check_sync.streams.getD 0 AudioStream.new).drift_compensation =
      1 - mixerSmallDrift.stream_adjustment 0 ∧
    mixerSmallDrift.check_sync.last_sync_check = mixerSmallDrift.target_granule :=
  ⟨by rw [mixerSmallDrift_ds, abs_of_nonneg (by norm_num : (0:ℚ) ≤ 1 / 200)]; norm_num,
   by rw [mixerSmallDrift_drift]; norm_num,
   ((check_sync_compensation_update mixerSmallDrift 0 rfl (by decide) (by decide)
       (by decide) (by decide)).1.1
     (by rw [mixerSmallDrift_ds, abs_of_nonneg (by norm_num : (0:ℚ) ≤ 1 / 200)]; norm_num)).2
     (by rw [mixerSmallDrift_drift]; norm_num),
   (check_sync_compensation_update mixerSmallDrift 0 rfl (by decide) (by decide)
       (by decide) (by decide)).2⟩

/-- C5: for read and write indices in `[0, N-1]`,
`0 ≤ available_read ≤ N-1` and `available_read + available_write = N - 1`,
and both producer writes and read-pointer updates (with an in-range
consumer index) keep the indices in `[0, N-1]`, preserving the relation. -/
theorem ring_buffer_available_invariant (rb : RingBuffer)
    (hr : rb.readPtr < BUFFER_SIZE) (hw : rb.writePtr < BUFFER_SIZE) :
    (rb.available_read ≤ BUFFER_SIZE - 1 ∧
     rb.available_read + rb.available_write = BUFFER_SIZE - 1) ∧
    (∀ samples : List ℚ,
      (rb.write samples).1.readPtr < BUFFER_SIZE ∧
      (rb.write samples).1.writePtr < BUFFER_SIZE) ∧
    (rb.metaRead < BUFFER_SIZE →
      rb.update_read_ptr.readPtr < BUFFER_SIZE ∧
      rb.update_read_ptr.writePtr < BUFFER_SIZE) := by
  refine ⟨?_, fun samples => ⟨hr, ?_⟩, fun hm => ⟨hm, hw⟩⟩
  · simp only [RingBuffer.available_read, RingBuffer.available_write,
      BUFFER_SIZE, FRAME_SIZE] at hr hw ⊢
    split_ifs <;> omega
  · have h1 : (rb.write samples).1.writePtr =
        (rb.writePtr + min samples.length
          (if rb.writePtr ≥ rb.readPtr then BUFFER_SIZE - (rb.writePtr - rb.readPtr) - 1
           else rb.readPtr - rb.writePtr - 1)) &&& BUFFER_MASK := rfl
    rw [h1]
    exact lt_of_le_of_lt Nat.and_le_right (by decide)

/-- C5 witness: the invariant and its preservation at concrete in-range
indices `w = 5`, `r = 3`. -/
theorem ring_buffer_available_invariant_witness :
    (rbAt 5 3).readPtr < BUFFER_SIZE ∧ (rbAt 5 3).writePtr < BUFFER_SIZE ∧
    (rbAt 5 3).available_read ≤ BUFFER_SIZE - 1 ∧
    (rbAt 5 3).available_read + (rbAt 5 3).available_write = BUFFER_SIZE - 1 ∧
    ((rbAt 5 3).write [1, 2]).1.writePtr < BUFFER_SIZE :=
  ⟨by decide, by decide,
   (ring_buffer_available_invariant (rbAt 5 3) (by decide) (by decide)).1.1,
   (ring_buffer_available_invariant (rbAt 5 3) (by decide) (by decide)).1.2,
   ((ring_buffer_available_invariant (rbAt 5 3) (by decide) (by decide)).2.1 [1, 2]).2⟩

/-- C6: with both headers processed and a decoder present, a packet whose
decode fails leaves the stream unchanged (in particular
`total_samples_decoded` and `current_granule_position`) and yields
`Ok(None)`; a decode of `k` samples advances both counters by exactly `k`
and yields `Ok(Some k)`. -/
theorem process_next_packet_decode_outcomes (s : AudioStream) (ext : Externals)
    (pkt : List ℕ) (ch : Channels)
    (hh : s.header_processed = true) (hc : s.comments_processed = true)
    (hd : s.decoder = some ch)
    (hr : ext.read_packet = .ok (some pkt)) :
    (ext.decode_float = .err →
      s.process_next_packet ext = .ok (s, none)) ∧
    (∀ k buf, ext.decode_float = .ok k buf →
      s.process_next_packet ext =
        .ok ({ s with
                decoded_buffer := buf
                total_samples_decoded := s.total_samples_decoded + k
                current_granule_position := s.current_granule_position + k },
             some k)) := by
  unfold AudioStream.process_next_packet
  rw [hr, hh, hc, hd]
  constructor
  · intro he; rw [he]; rfl
  · intro k buf he; rw [he]; rfl

/-- C6 witness: both outcomes at a concrete decodable stream, one failing
and one full-frame decode. -/
theorem process_next_packet_decode_outcomes_witness :
    streamReady.header_processed = true ∧
    streamReady.decoder = some Channels.stereo ∧
    extErr.decode_float = .err ∧
    streamReady.process_next_packet extErr = .ok (streamReady, none) ∧
    streamReady.process_next_packet extOk =
      .ok ({ streamReady with
              decoded_buffer := List.replicate (FRAME_SIZE * CHANNELS) 0
              total_samples_decoded := streamReady.total_samples_decoded + FRAME_SIZE
              current_granule_position :=
                streamReady.current_granule_position + FRAME_SIZE },
           some FRAME_SIZE) :=
  ⟨rfl, rfl, rfl,
   (process_next_packet_decode_outcomes streamReady extErr [1, 2, 3]
     Channels.stereo rfl rfl rfl rfl).1 rfl,
   (process_next_packet_decode_outcomes streamReady extOk [1, 2, 3]
     Channels.stereo rfl rfl rfl rfl).2 FRAME_SIZE _ rfl⟩

/-- C7: when running with a loaded mixer, `process` commits the frame-loop
result over a budget of
`min(⌈num_samples / FRAME_SIZE⌉, available_write / (FRAME_SIZE * 2))`
(computed after refreshing the read pointer), makes at most that many mixer
calls — exactly that many unless the loop stopped early on a partial write
or a mixer stall — and returns the total number of samples the ring buffer
actually recorded. -/
theorem opus_source_process_spec (src : OpusSource) (step : MixStep)
    (num_samples : ℕ) (mx : AudioMixer)
    (hrun : src.is_running = true) (hmx : src.mixer = some mx) :
    src.process step num_samples =
      ({ src with
          ring_buffer := (src.process_loop_result step num_samples mx).rb
          mixer := some (src.process_loop_result step num_samples mx).mixer },
       (src.process_loop_result step num_samples mx).total_samples_written) ∧
    (src.process_loop_result step num_samples mx).frames_attempted ≤
      frames_bound src.ring_buffer.update_read_ptr num_samples ∧
    ((src.process_loop_result step num_samples mx).early_stop = false →
      (src.process_loop_result step num_samples mx).frames_attempted =
        frames_bound src.ring_buffer.update_read_ptr num_samples) ∧
    (src.process_loop_result step num_samples mx).total_samples_written +
        src.ring_buffer.update_read_ptr.totalSamplesWritten =
      (src.process_loop_result step num_samples mx).rb.totalSamplesWritten := by
  have hproc : src.process step num_samples =
      ({ src with
          ring_buffer := (src.process_loop_result step num_samples mx).rb
          mixer := some (src.process_loop_result step num_samples mx).mixer },
       (src.process_loop_result step num_samples mx).total_samples_written) := by
    unfold OpusSource.process
    rw [hmx, hrun]
    dsimp only
    rw [OpusSource.process_loop_result, frames_bound, minIf]
    rfl
  obtain ⟨ha, hb, hc⟩ := processLoop_spec step
    (frames_bound src.ring_buffer.update_read_ptr num_samples) mx
    src.ring_buffer.update_read_ptr 0 0
  exact ⟨hproc, by simpa using ha, fun hes => by simpa using hb hes,
    by simpa using hc⟩

/-- C7 witness: a running source over a stalling mixer, requesting 7
samples. -/
theorem opus_source_process_spec_witness :
    srcRunning.is_running = true ∧
    srcRunning.mixer = some mixerEmpty ∧
    (srcRunning.process stepStall 7).2 =
      (srcRunning.process_loop_result stepStall 7 mixerEmpty).total_samples_written ∧
    (srcRunning.process_loop_result stepStall 7 mixerEmpty).frames_attempted ≤
      frames_bound srcRunning.ring_buffer.update_read_ptr 7 :=
  ⟨rfl, rfl,
   by rw [(opus_source_process_spec srcRunning stepStall 7 mixerEmpty rfl rfl).1],
   (opus_source_process_spec srcRunning stepStall 7 mixerEmpty rfl rfl).2.1⟩

/-- C8: a sync check that finds at most one unfinished stream leaves every
stream — in particular every `drift_compensation`, even one ≠ 1.0 from an
earlier cycle — untouched, and still advances `last_sync_check` to
`target_granule`. -/
theorem check_sync_single_stream_frame (m : AudioMixer)
    (helapsed : m.sync_interval ≤ m.target_granule - m.last_sync_check)
    (hcount : (syncScan m.streams m.stream_finished).active_count ≤ 1) :
    m.check_sync = { m with last_sync_check := m.target_granule } := by
  unfold AudioMixer.check_sync
  rw [if_neg (not_lt.mpr helapsed)]
  dsimp only
  rw [if_neg (show ¬((syncScan m.streams m.stream_finished).active_count > 1) from
    not_lt.mpr hcount)]

/-- C8 witness: a single-stream mixer whose stream carries compensation
`0.97` keeps it across the sync check while the clock advances. -/
theorem check_sync_single_stream_frame_witness :
    (syncScan mixerSingle.streams mixerSingle.stream_finished).active_count ≤ 1 ∧
    (mixerSingle.streams.getD 0 AudioStream.new).drift_compensation = 97 / 100 ∧
    mixerSingle.check_sync = { mixerSingle with last_sync_check := 48000 } :=
  ⟨by decide, rfl, check_sync_single_stream_frame mixerSingle (by decide) (by decide)⟩

/-- C9: `clear` resets exactly the two local index atomics and the two
shared metadata slots to zero, leaving the sample data and every
instrumentation counter and high-water mark unchanged. -/
theorem ring_buffer_clear_frame (rb : RingBuffer) :
    rb.clear.readPtr = 0 ∧ rb.clear.writePtr = 0 ∧
    rb.clear.metaRead = 0 ∧ rb.clear.metaWrite = 0 ∧
    rb.clear.data = rb.data ∧
    rb.clear.totalWrites = rb.totalWrites ∧
    rb.clear.totalReads = rb.totalReads ∧
    rb.clear.totalSamplesWritten = rb.totalSamplesWritten ∧
    rb.clear.totalSamplesRead = rb.totalSamplesRead ∧
    rb.clear.totalUnderruns = rb.totalUnderruns ∧
    rb.clear.highWaterMarkRead = rb.highWaterMarkRead ∧
    rb.clear.highWaterMarkWrite = rb.highWaterMarkWrite :=
  ⟨rfl, rfl, rfl, rfl, rfl, rfl, rfl, rfl, rfl, rfl, rfl, rfl⟩

/-- C10: `process` called while the source is not running or has no mixer
returns `0` and the source state — ring buffer, read pointer, and every
instrumentation counter included — is exactly unchanged. -/
theorem opus_source_process_idle_noop (src : OpusSource) (step : MixStep)
    (num_samples : ℕ)
    (h : src.is_running = false ∨ src.mixer = none) :
    src.process step num_samples = (src, 0) := by
  unfold OpusSource.process
  rcases h with h | h
  · rw [h]; rfl
  · rw [h]
    simp

/-- C10 witness: a never-started source with no mixer. -/
theorem opus_source_process_idle_noop_witness :
    (srcIdle.is_running = false ∨ srcIdle.mixer = none) ∧
    srcIdle.process stepStall 5 = (srcIdle, 0) :=
  ⟨Or.inl rfl, opus_source_process_idle_noop srcIdle stepStall 5 (Or.inl rfl)⟩

end RustAudio
